import Mathlib

set_option maxRecDepth 10000

/-!
# Verification of the laminardb fraud-detection core

A shallow embedding of the three core components of the repository —
the alert engine (src/src/alerts.rs), the synthetic-data generator
(src/src/generator.rs) and the latency tracker (src/src/latency.rs) —
together with proofs of the specification claims about them.

Modelling conventions:
* Rust `f64` values are modelled as exact rationals (`Rat`).  All float
  arithmetic appearing in the verified properties (ratios, imbalances,
  percentage thresholds) is exact at the relevant inputs, so no rounding
  behaviour is lost for these claims.
* Rust `i64` is modelled as `Int` (no claim depends on 64-bit overflow);
  `u64`/`usize` counters are modelled as `Nat`.  Rust `i64` division
  truncates towards zero, so it is embedded as `Int.tdiv`.
* `std::time::Instant` readings and `chrono` wall-clock readings are
  environment inputs: every operation that reads a clock takes the
  reading as an explicit argument (`lat_us`, `now_ms`, ...).
* Randomness is an oracle: each random quantity the Rust code draws from
  `rand::thread_rng` is supplied as an explicit draw argument.  Range
  guarantees of `gen_range(lo..hi)` become hypotheses `lo ≤ d ∧ d < hi`.
* Rust `HashMap` keyed state is modelled as a total function with the
  map's default for absent keys (`entry(..).or_insert_with(..)` always
  observes the default on a missing key, so the two views agree).
* `VecDeque` is a `List` whose head is the front (oldest) element;
  `pop_front` is `List.tail`, `push_back` appends on the right.
* The `description` strings of alerts are display-only; the `format!`
  calls with float precision specifiers are modelled as plain string
  concatenation of the integer parts.  No claim depends on them.
-/

namespace FraudDetect

/-! ## Data model (src/src/types.rs) -/

structure Trade where
  account_id : String
  symbol : String
  side : String
  price : Rat
  volume : Int
  order_ref : String
  ts : Int
deriving DecidableEq, Repr

structure Order where
  order_id : String
  account_id : String
  symbol : String
  side : String
  quantity : Int
  price : Rat
  ts : Int
deriving DecidableEq, Repr

structure VolumeBaseline where
  symbol : String
  total_volume : Int
  trade_count : Int
  avg_price : Rat
deriving DecidableEq, Repr

structure OhlcVolatility where
  symbol : String
  bar_start : Int
  «open» : Rat
  high : Rat
  low : Rat
  close : Rat
  volume : Int
  price_range : Rat
deriving DecidableEq, Repr

structure RapidFireBurst where
  account_id : String
  burst_trades : Int
  burst_volume : Int
  low : Rat
  high : Rat
deriving DecidableEq, Repr

structure WashScore where
  account_id : String
  symbol : String
  buy_volume : Int
  sell_volume : Int
  buy_count : Int
  sell_count : Int
deriving DecidableEq, Repr

structure SuspiciousMatch where
  symbol : String
  trade_price : Rat
  volume : Int
  order_id : String
  account_id : String
  side : String
  order_price : Rat
  price_diff : Rat
deriving DecidableEq, Repr

/-! ## Alert engine (src/src/alerts.rs) -/

inductive AlertSeverity where
  | Medium
  | High
  | Critical
deriving DecidableEq, Repr

inductive AlertType where
  | VolumeAnomaly
  | PriceSpike
  | RapidFire
  | WashTrading
  | SuspiciousMatch
deriving DecidableEq, Repr

def AlertType.label : AlertType → String
  | .VolumeAnomaly => "VolumeAnomaly"
  | .PriceSpike => "PriceSpike"
  | .RapidFire => "RapidFire"
  | .WashTrading => "WashTrading"
  | .SuspiciousMatch => "SuspiciousMatch"

structure Alert where
  id : Nat
  alert_type : AlertType
  severity : AlertSeverity
  description : String
  latency_us : Nat
  timestamp_ms : Int
deriving DecidableEq, Repr

/-- The engine state of `AlertEngine` in src/src/alerts.rs.  The two
`HashMap` fields are total functions whose value on an absent key is the
map's default (`VecDeque::new()` resp. `0`). -/
structure AlertEngine where
  next_id : Nat
  alerts : List Alert
  vol_baselines : String → List Int
  volume_ratio_threshold : Rat
  price_range_pct_threshold : Rat
  rapid_fire_threshold : Int
  wash_imbalance_threshold : Rat
  match_price_diff_threshold : Rat
  counts : String → Nat

/-- `AlertEngine::new` with the default thresholds 2.0, 0.002, 5, 0.3, 1.0. -/
def AlertEngine.new : AlertEngine where
  next_id := 0
  alerts := []
  vol_baselines := fun _ => []
  volume_ratio_threshold := 2
  price_range_pct_threshold := 1 / 500
  rapid_fire_threshold := 5
  wash_imbalance_threshold := 3 / 10
  match_price_diff_threshold := 1
  counts := fun _ => 0

/-- `AlertEngine::push_alert`: bump the per-type counter, evict the
oldest alert when the buffer already holds 200, and append. -/
def push_alert (e : AlertEngine) (a : Alert) : AlertEngine :=
  { e with
    counts := fun k => if k = a.alert_type.label then e.counts k + 1 else e.counts k
    alerts := (if 200 ≤ e.alerts.length then e.alerts.tail else e.alerts) ++ [a] }

/-- The moving average used by `evaluate_volume`: the current observation
itself when the history is empty, otherwise the truncating i64 division
of the history sum by its length. -/
def volumeAvg (history : List Int) (tv : Int) : Int :=
  if history.isEmpty then tv else Int.tdiv history.sum (history.length : Int)

def volumeDescription (row : VolumeBaseline) (avg : Int) : String :=
  row.symbol ++ " vol=" ++ toString row.total_volume ++ " avg=" ++ toString avg

/-- `AlertEngine::evaluate_volume`.  The history for the row's symbol is
read, the average is taken over the history before the current
observation is appended, the history is updated unconditionally (bounded
to the most recent 20 entries), and an alert fires iff the average is
positive and volume/average exceeds the ratio threshold. -/
def evaluate_volume (e : AlertEngine) (row : VolumeBaseline) (lat_us : Nat) (now_ms : Int) :
    AlertEngine × Option Alert :=
  let history := e.vol_baselines row.symbol
  let avg := volumeAvg history row.total_volume
  let history1 := (if 20 ≤ history.length then history.tail else history) ++ [row.total_volume]
  let e1 := { e with
    vol_baselines := fun s => if s = row.symbol then history1 else e.vol_baselines s }
  if 0 < avg then
    let vr : Rat := (row.total_volume : Rat) / (avg : Rat)
    if e.volume_ratio_threshold < vr then
      let sev : AlertSeverity :=
        if 10 < vr then .Critical else if 5 < vr then .High else .Medium
      let a : Alert :=
        { id := e1.next_id + 1, alert_type := .VolumeAnomaly, severity := sev
          description := volumeDescription row avg
          latency_us := lat_us, timestamp_ms := now_ms }
      (push_alert { e1 with next_id := e1.next_id + 1 } a, some a)
    else (e1, none)
  else (e1, none)

def ohlcDescription (row : OhlcVolatility) : String :=
  row.symbol ++ " range O H L"

/-- The range fraction used by `evaluate_ohlc`: the row's `price_range`
field divided by the row's open price. -/
def rangePct (row : OhlcVolatility) : Rat :=
  row.price_range / row.«open»

/-- `AlertEngine::evaluate_ohlc`: fires iff the open is positive and
`price_range / open` exceeds the range threshold. -/
def evaluate_ohlc (e : AlertEngine) (row : OhlcVolatility) (lat_us : Nat) (now_ms : Int) :
    AlertEngine × Option Alert :=
  if 0 < row.«open» then
    if e.price_range_pct_threshold < rangePct row then
      let sev : AlertSeverity :=
        if 1 / 20 < rangePct row then .Critical
        else if 1 / 100 < rangePct row then .High
        else .Medium
      let a : Alert :=
        { id := e.next_id + 1, alert_type := .PriceSpike, severity := sev
          description := ohlcDescription row
          latency_us := lat_us, timestamp_ms := now_ms }
      (push_alert { e with next_id := e.next_id + 1 } a, some a)
    else (e, none)
  else (e, none)

def rapidDescription (row : RapidFireBurst) : String :=
  row.account_id ++ " " ++ toString row.burst_trades ++ " trades vol=" ++
    toString row.burst_volume

/-- `AlertEngine::evaluate_rapid_fire`: fires iff the burst trade count
reaches the rapid-fire threshold. -/
def evaluate_rapid_fire (e : AlertEngine) (row : RapidFireBurst) (lat_us : Nat) (now_ms : Int) :
    AlertEngine × Option Alert :=
  if e.rapid_fire_threshold ≤ row.burst_trades then
    let sev : AlertSeverity :=
      if 50 < row.burst_trades then .Critical
      else if 20 < row.burst_trades then .High
      else .Medium
    let a : Alert :=
      { id := e.next_id + 1, alert_type := .RapidFire, severity := sev
        description := rapidDescription row
        latency_us := lat_us, timestamp_ms := now_ms }
    (push_alert { e with next_id := e.next_id + 1 } a, some a)
  else (e, none)

def washDescription (row : WashScore) : String :=
  row.account_id ++ " " ++ row.symbol ++ " buy=" ++ toString row.buy_volume ++
    " sell=" ++ toString row.sell_volume

/-- The imbalance used by `evaluate_wash`: `unsigned_abs` of the buy/sell
difference, as a float, over the total volume as a float. -/
def washImbalance (row : WashScore) : Rat :=
  ((row.buy_volume - row.sell_volume).natAbs : Rat) /
    ((row.buy_volume + row.sell_volume : Int) : Rat)

/-- `AlertEngine::evaluate_wash`: fires iff the total volume is positive,
both sides saw at least two trades, and the imbalance is below the wash
threshold. -/
def evaluate_wash (e : AlertEngine) (row : WashScore) (lat_us : Nat) (now_ms : Int) :
    AlertEngine × Option Alert :=
  if 0 < row.buy_volume + row.sell_volume ∧ 2 ≤ row.buy_count ∧ 2 ≤ row.sell_count then
    if washImbalance row < e.wash_imbalance_threshold then
      let sev : AlertSeverity :=
        if washImbalance row < 1 / 50 then .Critical
        else if washImbalance row < 1 / 20 then .High
        else .Medium
      let a : Alert :=
        { id := e.next_id + 1, alert_type := .WashTrading, severity := sev
          description := washDescription row
          latency_us := lat_us, timestamp_ms := now_ms }
      (push_alert { e with next_id := e.next_id + 1 } a, some a)
    else (e, none)
  else (e, none)

def matchDescription (row : SuspiciousMatch) : String :=
  row.account_id ++ " " ++ row.symbol ++ " order=" ++ row.order_id

/-- `AlertEngine::evaluate_match`: fires iff the absolute price
difference is below the match threshold. -/
def evaluate_match (e : AlertEngine) (row : SuspiciousMatch) (lat_us : Nat) (now_ms : Int) :
    AlertEngine × Option Alert :=
  if abs row.price_diff < e.match_price_diff_threshold then
    let sev : AlertSeverity :=
      if abs row.price_diff < 1 / 1000 then .High else .Medium
    let a : Alert :=
      { id := e.next_id + 1, alert_type := .SuspiciousMatch, severity := sev
        description := matchDescription row
        latency_us := lat_us, timestamp_ms := now_ms }
    (push_alert { e with next_id := e.next_id + 1 } a, some a)
  else (e, none)

/-- One evaluation step of the alert engine: the state transition of any
of the five evaluate operations, for an arbitrary row and clock
readings. -/
inductive EngineStep : AlertEngine → AlertEngine → Prop where
  | volume (e : AlertEngine) (row : VolumeBaseline) (lat_us : Nat) (now_ms : Int) :
      EngineStep e (evaluate_volume e row lat_us now_ms).1
  | ohlc (e : AlertEngine) (row : OhlcVolatility) (lat_us : Nat) (now_ms : Int) :
      EngineStep e (evaluate_ohlc e row lat_us now_ms).1
  | rapid (e : AlertEngine) (row : RapidFireBurst) (lat_us : Nat) (now_ms : Int) :
      EngineStep e (evaluate_rapid_fire e row lat_us now_ms).1
  | wash (e : AlertEngine) (row : WashScore) (lat_us : Nat) (now_ms : Int) :
      EngineStep e (evaluate_wash e row lat_us now_ms).1
  | smatch (e : AlertEngine) (row : SuspiciousMatch) (lat_us : Nat) (now_ms : Int) :
      EngineStep e (evaluate_match e row lat_us now_ms).1

/-- The alert-engine states reachable in the program: the freshly
constructed engine, closed under evaluation steps. -/
inductive Reachable : AlertEngine → Prop where
  | init : Reachable AlertEngine.new
  | step {e e' : AlertEngine} : Reachable e → EngineStep e e' → Reachable e'

/-! ## Generator (src/src/generator.rs) -/

def SYMBOLS : List (String × Rat) :=
  [("AAPL", 150), ("GOOGL", 2800), ("MSFT", 420), ("AMZN", 185), ("TSLA", 250)]

def NORMAL_ACCOUNTS : List String :=
  ["ACCT-001", "ACCT-002", "ACCT-003", "ACCT-004", "ACCT-005"]

def FRAUD_ACCOUNTS : List String :=
  ["FRAUD-01", "FRAUD-02", "FRAUD-03"]

inductive FraudScenario where
  | VolumeSpike
  | PriceManipulation
  | RapidFire
  | WashTrading
deriving DecidableEq, Repr

def ALL_SCENARIOS : List FraudScenario :=
  [.VolumeSpike, .PriceManipulation, .RapidFire, .WashTrading]

/-- `FraudGenerator` state: current per-symbol price (a total function
standing for the `HashMap`), sequence counters, the configured fraud
rate, and the price-manipulation arc state. -/
structure GenState where
  prices : String → Rat
  order_seq : Nat
  trade_seq : Nat
  fraud_rate : Rat
  manipulation_remaining : Nat
  manipulation_symbol : Option String

/-- The initial price map: the base price of each entry of `SYMBOLS`. -/
def initPrices : String → Rat := fun s =>
  ((SYMBOLS.find? (fun p => p.1 = s)).map Prod.snd).getD 0

/-- `FraudGenerator::new`. -/
def FraudGenerator.new (rate : Rat) : GenState where
  prices := initPrices
  order_seq := 0
  trade_seq := 0
  fraud_rate := rate
  manipulation_remaining := 0
  manipulation_symbol := none

/-- The random draws consumed for one symbol inside
`FraudGenerator::generate_normal`.  The oracle supplies a value for
every draw site; the code reads `pushFrac` only in the manipulation
branch and `walkFrac` only in the ordinary branch. -/
structure NormalDraw where
  pushFrac : Rat
  walkFrac : Rat
  acctIdx : Nat
  sideBuy : Bool
  volume : Int
  emitOrder : Bool
  offsetFrac : Rat

/-- The body of the per-symbol loop of `generate_normal`: update the
symbol's price (manipulation push with final-cycle reversal, or the
symmetric random walk), emit one trade, and with the order draw also
emit a matching order. -/
def normalSymStep (d : String → NormalDraw) (ts : Int)
    (acc : GenState × List Trade × List Order) (symPair : String × Rat) :
    GenState × List Trade × List Order :=
  let s := acc.1
  let sym := symPair.1
  let dr := d sym
  let price := s.prices sym
  let upd :=
    if 0 < s.manipulation_remaining ∧ s.manipulation_symbol = some sym then
      let p1 := price + price * dr.pushFrac
      if s.manipulation_remaining - 1 = 0 then
        (p1 * (92 / 100), 0, (none : Option String))
      else
        (p1, s.manipulation_remaining - 1, s.manipulation_symbol)
    else
      (price + price * dr.walkFrac, s.manipulation_remaining, s.manipulation_symbol)
  let newPrice := upd.1
  let account := NORMAL_ACCOUNTS.getD dr.acctIdx ""
  let side := if dr.sideBuy then "buy" else "sell"
  let tseq := s.trade_seq + 1
  let trade : Trade :=
    { account_id := account, symbol := sym, side := side, price := newPrice
      volume := dr.volume, order_ref := "T-" ++ toString tseq, ts := ts }
  let oseq := if dr.emitOrder then s.order_seq + 1 else s.order_seq
  let orders :=
    if dr.emitOrder then
      acc.2.2 ++ [{ order_id := "ORD-" ++ toString oseq, account_id := account
                    symbol := sym, side := side, quantity := dr.volume
                    price := newPrice + newPrice * dr.offsetFrac, ts := ts : Order }]
    else acc.2.2
  ({ s with
      prices := fun y => if y = sym then newPrice else s.prices y
      trade_seq := tseq, order_seq := oseq
      manipulation_remaining := upd.2.1, manipulation_symbol := upd.2.2 },
   acc.2.1 ++ [trade], orders)

/-- `FraudGenerator::generate_normal`: one pass over all symbols. -/
def generate_normal (s : GenState) (d : String → NormalDraw) (ts : Int) :
    GenState × List Trade × List Order :=
  SYMBOLS.foldl (normalSymStep d ts) (s, [], [])

/-- The random draws consumed by `inject_volume_spike`. -/
structure SpikeDraw where
  symIdx : Nat
  acctIdx : Nat
  count : Nat
  baseVol : Nat → Int
  mult : Nat → Int
  sideBuy : Nat → Bool
  priceFrac : Nat → Rat

/-- `FraudGenerator::inject_volume_spike`: 5-10 trades at 10-50x volume
from one fraud account, then a full normal cycle. -/
def inject_volume_spike (s : GenState) (d : SpikeDraw) (nd : String → NormalDraw) (ts : Int) :
    GenState × List Trade × List Order :=
  let sym := (SYMBOLS.getD d.symIdx ("", 0)).1
  let price := s.prices sym
  let fraud_acct := FRAUD_ACCOUNTS.getD d.acctIdx ""
  let fold := (List.range d.count).foldl
    (fun (acc : Nat × List Trade) i =>
      let tseq := acc.1 + 1
      (tseq, acc.2 ++ [{
        account_id := fraud_acct, symbol := sym
        side := if d.sideBuy i then "buy" else "sell"
        price := price + price * d.priceFrac i
        volume := d.baseVol i * d.mult i
        order_ref := "T-" ++ toString tseq, ts := ts : Trade }]))
    (s.trade_seq, [])
  let res := generate_normal { s with trade_seq := fold.1 } nd ts
  (res.1, fold.2 ++ res.2.1, res.2.2)

/-- The random draws consumed by `inject_rapid_fire`. -/
structure RapidDraw where
  symIdx : Nat
  acctIdx : Nat
  count : Nat
  gapMs : Nat → Int
  sideBuy : Nat → Bool
  volume : Nat → Int
  priceFrac : Nat → Rat

/-- `FraudGenerator::inject_rapid_fire`: 20-30 trades spaced 50-100ms
apart from one fraud account, then a normal cycle. -/
def inject_rapid_fire (s : GenState) (d : RapidDraw) (nd : String → NormalDraw) (ts : Int) :
    GenState × List Trade × List Order :=
  let sym := (SYMBOLS.getD d.symIdx ("", 0)).1
  let price := s.prices sym
  let fraud_acct := FRAUD_ACCOUNTS.getD d.acctIdx ""
  let fold := (List.range d.count).foldl
    (fun (acc : Nat × List Trade) i =>
      let tseq := acc.1 + 1
      (tseq, acc.2 ++ [{
        account_id := fraud_acct, symbol := sym
        side := if d.sideBuy i then "buy" else "sell"
        price := price + price * d.priceFrac i
        volume := d.volume i
        order_ref := "T-" ++ toString tseq
        ts := ts + (i : Int) * d.gapMs i : Trade }]))
    (s.trade_seq, [])
  let res := generate_normal { s with trade_seq := fold.1 } nd ts
  (res.1, fold.2 ++ res.2.1, res.2.2)

/-- The random draws consumed by `inject_wash_trading`. -/
structure WashDraw where
  symIdx : Nat
  acctIdx : Nat
  pairs : Nat
  volume : Nat → Int
  sellOff : Nat → Rat

/-- `FraudGenerator::inject_wash_trading`: 3-6 matched buy/sell pairs
from one fraud account at near-identical prices, then a normal cycle. -/
def inject_wash_trading (s : GenState) (d : WashDraw) (nd : String → NormalDraw) (ts : Int) :
    GenState × List Trade × List Order :=
  let sym := (SYMBOLS.getD d.symIdx ("", 0)).1
  let price := s.prices sym
  let fraud_acct := FRAUD_ACCOUNTS.getD d.acctIdx ""
  let fold := (List.range d.pairs).foldl
    (fun (acc : Nat × List Trade) i =>
      let vol := d.volume i
      let tseq1 := acc.1 + 1
      let buyT : Trade :=
        { account_id := fraud_acct, symbol := sym, side := "buy", price := price
          volume := vol, order_ref := "T-" ++ toString tseq1, ts := ts }
      let tseq2 := tseq1 + 1
      let sellT : Trade :=
        { account_id := fraud_acct, symbol := sym, side := "sell"
          price := price + d.sellOff i
          volume := vol, order_ref := "T-" ++ toString tseq2, ts := ts }
      (tseq2, acc.2 ++ [buyT, sellT]))
    (s.trade_seq, [])
  let res := generate_normal { s with trade_seq := fold.1 } nd ts
  (res.1, fold.2 ++ res.2.1, res.2.2)

/-- `rand::Rng::gen_bool`: the draw succeeds only for a probability in
the closed interval from 0 to 1; any other argument panics, modelled as
`none`. -/
def gen_bool (p : Rat) (draw : Bool) : Option Bool :=
  if 0 ≤ p ∧ p ≤ 1 then some draw else none

/-- The random draws consumed by one `generate_cycle` call. -/
structure CycleDraws where
  fraudDraw : Bool
  scenarioIdx : Nat
  manipSymIdx : Nat
  spike : SpikeDraw
  rapid : RapidDraw
  wash : WashDraw
  normal : String → NormalDraw

/-- `FraudGenerator::generate_cycle`: decide fraud injection by a
Bernoulli draw on `fraud_rate.min(1.0)` (note: clamped from above
only), dispatch to one of the four scenarios, and otherwise (or for the
price-manipulation arming and its continuation) run the normal cycle.
The result is `none` exactly when the Bernoulli draw panics. -/
def generate_cycle (s : GenState) (ts : Int) (o : CycleDraws) :
    Option (GenState × List Trade × List Order) :=
  match gen_bool (min s.fraud_rate 1) o.fraudDraw with
  | none => none
  | some inject_fraud =>
    if inject_fraud then
      match ALL_SCENARIOS.getD o.scenarioIdx .VolumeSpike with
      | .VolumeSpike => some (inject_volume_spike s o.spike o.normal ts)
      | .PriceManipulation =>
          let s1 := { s with
            manipulation_remaining := 3
            manipulation_symbol := some (SYMBOLS.getD o.manipSymIdx ("", 0)).1 }
          some (generate_normal s1 o.normal ts)
      | .RapidFire => some (inject_rapid_fire s o.rapid o.normal ts)
      | .WashTrading => some (inject_wash_trading s o.wash o.normal ts)
    else
      some (generate_normal s o.normal ts)

/-- Modelled from the spec: `FraudGenerator::generate_stress_cycle` and
`FraudGenerator::stress_cycle_span_ms` are called from src/src/stress.rs
and the benchmarks but their definitions are not under src/.  Following
spec section 4.2, the model emits exactly `trade_count` normal trades
with deterministic timestamp spacing inside the cycle's time span and no
fraud-account ids; non-timestamp trade attributes come from a draw
oracle as in the normal generator. -/
def STRESS_SPACING_MS : Int := 1

/-- Modelled from the spec: the per-trade draws of a stress cycle
(account, side, volume); timestamps are deterministic and not drawn. -/
structure StressDraw where
  acctIdx : Nat
  sideBuy : Bool
  volume : Int

/-- Modelled from the spec: the time span one stress cycle occupies, as
used by the driver in src/src/stress.rs to advance its event timestamp
between cycles. -/
def stress_cycle_span_ms (trade_count : Nat) : Int :=
  (trade_count : Int) * STRESS_SPACING_MS

/-- Modelled from the spec: `generate_stress_cycle(timestamp,
trade_count)` emits `trade_count` normal trades, each from a normal
account, with the i-th trade at `timestamp + i * STRESS_SPACING_MS`. -/
def generate_stress_cycle (s : GenState) (ts : Int) (trade_count : Nat)
    (d : Nat → StressDraw) : GenState × List Trade :=
  ({ s with trade_seq := s.trade_seq + trade_count },
   (List.range trade_count).map (fun i =>
     let sym := (SYMBOLS.getD (i % SYMBOLS.length) ("", 0)).1
     { account_id := NORMAL_ACCOUNTS.getD ((d i).acctIdx) ""
       symbol := sym
       side := if (d i).sideBuy then "buy" else "sell"
       price := s.prices sym
       volume := (d i).volume
       order_ref := "T-" ++ toString (s.trade_seq + i + 1)
       ts := ts + (i : Int) * STRESS_SPACING_MS }))

/-! ## Latency tracker (src/src/latency.rs) -/

def WINDOW_SIZE : Nat := 1000

structure LatencyStats where
  p50_us : Nat
  p95_us : Nat
  p99_us : Nat
  min_us : Nat
  max_us : Nat
  count : Nat
deriving DecidableEq, Repr

/-- The all-zero `Default` impl of `LatencyStats`. -/
def LatencyStats.zeroDefault : LatencyStats :=
  { p50_us := 0, p95_us := 0, p99_us := 0, min_us := 0, max_us := 0, count := 0 }

/-- `LatencyTracker` state: the three bounded sample windows (head =
oldest) and the instant of the most recent `record_push_end`. -/
structure LatencyTracker where
  push_latencies : List Nat
  processing_latencies : List Nat
  alert_latencies : List Nat
  last_push_instant : Option Nat
deriving DecidableEq, Repr

def LatencyTracker.new : LatencyTracker :=
  { push_latencies := [], processing_latencies := [], alert_latencies := []
    last_push_instant := none }

/-- `LatencyTracker::reset`: clear all three windows and the
processing-latency origin marker. -/
def LatencyTracker.reset (t : LatencyTracker) : LatencyTracker :=
  { push_latencies := [], processing_latencies := [], alert_latencies := []
    last_push_instant := none }

/-- `push_capped`: evict the oldest sample when the window is full, then
append. -/
def push_capped (q : List Nat) (v : Nat) : List Nat :=
  (if WINDOW_SIZE ≤ q.length then q.tail else q) ++ [v]

/-- `LatencyTracker::record_push_end`: sample the elapsed time since
`start` into the ingestion window and remember the current instant.
`start` and `now` are the two `Instant` readings, in microseconds. -/
def record_push_end (t : LatencyTracker) (start now : Nat) : LatencyTracker :=
  { t with push_latencies := push_capped t.push_latencies (now - start)
           last_push_instant := some now }

/-- `LatencyTracker::record_poll`: if a push instant is remembered,
sample the elapsed time since it into the processing window; otherwise
do nothing. -/
def record_poll (t : LatencyTracker) (now : Nat) : LatencyTracker :=
  match t.last_push_instant with
  | none => t
  | some push_time =>
      { t with processing_latencies := push_capped t.processing_latencies (now - push_time) }

/-- `LatencyTracker::record_alert`. -/
def record_alert (t : LatencyTracker) (gen_instant now : Nat) : LatencyTracker :=
  { t with alert_latencies := push_capped t.alert_latencies (now - gen_instant) }

/-- `compute_stats`: empty window yields the all-zero default, otherwise
order statistics are read off a sorted copy of the window at the
documented indices.  The Rust code indexes with `sorted[i]`; every index
it uses is in range (proved below), so total `getD` indexing agrees. -/
def compute_stats (q : List Nat) : LatencyStats :=
  if q.isEmpty then LatencyStats.zeroDefault
  else
    let sorted := List.insertionSort (· ≤ ·) q
    let n := sorted.length
    { p50_us := sorted.getD (n * 50 / 100) 0
      p95_us := sorted.getD (n * 95 / 100) 0
      p99_us := sorted.getD (min (n * 99 / 100) (n - 1)) 0
      min_us := sorted.getD 0 0
      max_us := sorted.getD (n - 1) 0
      count := n }

def push_stats (t : LatencyTracker) : LatencyStats := compute_stats t.push_latencies

def processing_stats (t : LatencyTracker) : LatencyStats := compute_stats t.processing_latencies

def alert_stats (t : LatencyTracker) : LatencyStats := compute_stats t.alert_latencies

/-- The mutating operations of the latency tracker, with their clock
readings, for stating reachability facts about operation sequences.
(`record_push_start` only reads the clock and does not mutate.) -/
inductive TrackOp where
  | pushEnd (start now : Nat)
  | poll (now : Nat)
  | alert (gen_instant now : Nat)
  | reset
deriving DecidableEq, Repr

def applyOp (t : LatencyTracker) : TrackOp → LatencyTracker
  | .pushEnd start now => record_push_end t start now
  | .poll now => record_poll t now
  | .alert g now => record_alert t g now
  | .reset => t.reset

def runOps (t : LatencyTracker) (ops : List TrackOp) : LatencyTracker :=
  ops.foldl applyOp t

def TrackOp.isPushEnd : TrackOp → Bool
  | .pushEnd _ _ => true
  | _ => false

def TrackOp.isReset : TrackOp → Bool
  | .reset => true
  | _ => false

/-- No `record_push_end` has occurred since the most recent reset (or
ever, when the sequence contains no reset). -/
def noPushEndSinceReset (ops : List TrackOp) : Bool :=
  (ops.reverse.takeWhile (fun op => !op.isReset)).all (fun op => !op.isPushEnd)

/-! ## Helper lemmas about the alert engine -/

/-- `b` agrees with `e` on the alert buffer, the counters and all five
thresholds (the fields an evaluation only ever changes through
`push_alert`). -/
def SameCore (e b : AlertEngine) : Prop :=
  b.alerts = e.alerts ∧ b.counts = e.counts ∧
  b.volume_ratio_threshold = e.volume_ratio_threshold ∧
  b.price_range_pct_threshold = e.price_range_pct_threshold ∧
  b.rapid_fire_threshold = e.rapid_fire_threshold ∧
  b.wash_imbalance_threshold = e.wash_imbalance_threshold ∧
  b.match_price_diff_threshold = e.match_price_diff_threshold

lemma sameCore_refl (e : AlertEngine) : SameCore e e :=
  ⟨rfl, rfl, rfl, rfl, rfl, rfl, rfl⟩

lemma evaluate_volume_cases (e : AlertEngine) (row : VolumeBaseline) (lat_us : Nat)
    (now_ms : Int) :
    SameCore e (evaluate_volume e row lat_us now_ms).1 ∨
      ∃ b a, SameCore e b ∧ (evaluate_volume e row lat_us now_ms).1 = push_alert b a := by
  simp only [evaluate_volume]
  split_ifs <;>
    first
      | exact Or.inl ⟨rfl, rfl, rfl, rfl, rfl, rfl, rfl⟩
      | (refine Or.inr ⟨_, _, ?_, rfl⟩; exact ⟨rfl, rfl, rfl, rfl, rfl, rfl, rfl⟩)

lemma evaluate_ohlc_cases (e : AlertEngine) (row : OhlcVolatility) (lat_us : Nat)
    (now_ms : Int) :
    SameCore e (evaluate_ohlc e row lat_us now_ms).1 ∨
      ∃ b a, SameCore e b ∧ (evaluate_ohlc e row lat_us now_ms).1 = push_alert b a := by
  simp only [evaluate_ohlc]
  split_ifs <;>
    first
      | exact Or.inl ⟨rfl, rfl, rfl, rfl, rfl, rfl, rfl⟩
      | (refine Or.inr ⟨_, _, ?_, rfl⟩; exact ⟨rfl, rfl, rfl, rfl, rfl, rfl, rfl⟩)

lemma evaluate_rapid_fire_cases (e : AlertEngine) (row : RapidFireBurst) (lat_us : Nat)
    (now_ms : Int) :
    SameCore e (evaluate_rapid_fire e row lat_us now_ms).1 ∨
      ∃ b a, SameCore e b ∧ (evaluate_rapid_fire e row lat_us now_ms).1 = push_alert b a := by
  simp only [evaluate_rapid_fire]
  split_ifs <;>
    first
      | exact Or.inl ⟨rfl, rfl, rfl, rfl, rfl, rfl, rfl⟩
      | (refine Or.inr ⟨_, _, ?_, rfl⟩; exact ⟨rfl, rfl, rfl, rfl, rfl, rfl, rfl⟩)

lemma evaluate_wash_cases (e : AlertEngine) (row : WashScore) (lat_us : Nat)
    (now_ms : Int) :
    SameCore e (evaluate_wash e row lat_us now_ms).1 ∨
      ∃ b a, SameCore e b ∧ (evaluate_wash e row lat_us now_ms).1 = push_alert b a := by
  simp only [evaluate_wash]
  split_ifs <;>
    first
      | exact Or.inl ⟨rfl, rfl, rfl, rfl, rfl, rfl, rfl⟩
      | (refine Or.inr ⟨_, _, ?_, rfl⟩; exact ⟨rfl, rfl, rfl, rfl, rfl, rfl, rfl⟩)

lemma evaluate_match_cases (e : AlertEngine) (row : SuspiciousMatch) (lat_us : Nat)
    (now_ms : Int) :
    SameCore e (evaluate_match e row lat_us now_ms).1 ∨
      ∃ b a, SameCore e b ∧ (evaluate_match e row lat_us now_ms).1 = push_alert b a := by
  simp only [evaluate_match]
  split_ifs <;>
    first
      | exact Or.inl ⟨rfl, rfl, rfl, rfl, rfl, rfl, rfl⟩
      | (refine Or.inr ⟨_, _, ?_, rfl⟩; exact ⟨rfl, rfl, rfl, rfl, rfl, rfl, rfl⟩)

lemma engineStep_cases {e e' : AlertEngine} (h : EngineStep e e') :
    SameCore e e' ∨ ∃ b a, SameCore e b ∧ e' = push_alert b a := by
  cases h with
  | volume row lat_us now_ms => exact evaluate_volume_cases e row lat_us now_ms
  | ohlc row lat_us now_ms => exact evaluate_ohlc_cases e row lat_us now_ms
  | rapid row lat_us now_ms => exact evaluate_rapid_fire_cases e row lat_us now_ms
  | wash row lat_us now_ms => exact evaluate_wash_cases e row lat_us now_ms
  | smatch row lat_us now_ms => exact evaluate_match_cases e row lat_us now_ms

lemma push_alert_alerts (e : AlertEngine) (a : Alert) :
    (push_alert e a).alerts =
      (if 200 ≤ e.alerts.length then e.alerts.tail else e.alerts) ++ [a] := rfl

lemma push_alert_counts_le (e : AlertEngine) (a : Alert) (k : String) :
    e.counts k ≤ (push_alert e a).counts k := by
  simp only [push_alert]
  split <;> omega

lemma push_alert_length_le (e : AlertEngine) (a : Alert) (h : e.alerts.length ≤ 200) :
    (push_alert e a).alerts.length ≤ 200 := by
  simp only [push_alert, List.length_append, List.length_singleton]
  split
  · simp only [List.length_tail]
    omega
  · omega

lemma engineStep_alerts_length {e e' : AlertEngine} (h : EngineStep e e')
    (hle : e.alerts.length ≤ 200) : e'.alerts.length ≤ 200 := by
  rcases engineStep_cases h with hc | ⟨b, a, hc, hb⟩
  · rw [hc.1]; exact hle
  · rw [hb]
    exact push_alert_length_le b a (hc.1 ▸ hle)

lemma reachable_alerts_length {e : AlertEngine} (h : Reachable e) :
    e.alerts.length ≤ 200 := by
  induction h with
  | init => simp [AlertEngine.new]
  | step _ hstep ih => exact engineStep_alerts_length hstep ih

lemma engineStep_counts_le {e e' : AlertEngine} (h : EngineStep e e') (k : String) :
    e.counts k ≤ e'.counts k := by
  rcases engineStep_cases h with hc | ⟨b, a, hc, hb⟩
  · rw [hc.2.1]
  · rw [hb]
    calc e.counts k = b.counts k := (congrFun hc.2.1 k).symm
      _ ≤ (push_alert b a).counts k := push_alert_counts_le b a k

lemma engineStep_alerts_shape {e e' : AlertEngine} (h : EngineStep e e') :
    e'.alerts = e.alerts ∨
      ∃ a, e'.alerts = (if 200 ≤ e.alerts.length then e.alerts.tail else e.alerts) ++ [a] := by
  rcases engineStep_cases h with hc | ⟨b, a, hc, hb⟩
  · exact Or.inl hc.1
  · refine Or.inr ⟨a, ?_⟩
    rw [hb, push_alert_alerts, hc.1]

lemma reachable_thresholds {e : AlertEngine} (h : Reachable e) :
    e.volume_ratio_threshold = 2 ∧ e.price_range_pct_threshold = 1 / 500 ∧
    e.rapid_fire_threshold = 5 ∧ e.wash_imbalance_threshold = 3 / 10 ∧
    e.match_price_diff_threshold = 1 := by
  induction h with
  | init => exact ⟨rfl, rfl, rfl, rfl, rfl⟩
  | step _ hstep ih =>
      rcases engineStep_cases hstep with hc | ⟨b, a, hc, hb⟩
      · exact ⟨hc.2.2.1.trans ih.1, hc.2.2.2.1.trans ih.2.1, hc.2.2.2.2.1.trans ih.2.2.1,
          hc.2.2.2.2.2.1.trans ih.2.2.2.1, hc.2.2.2.2.2.2.trans ih.2.2.2.2⟩
      · rw [hb]
        exact ⟨hc.2.2.1.trans ih.1, hc.2.2.2.1.trans ih.2.1, hc.2.2.2.2.1.trans ih.2.2.1,
          hc.2.2.2.2.2.1.trans ih.2.2.2.1, hc.2.2.2.2.2.2.trans ih.2.2.2.2⟩

/-! ## C7: bounded alert buffer, FIFO eviction, monotone counters -/

/-- C7: in every reachable engine state the recent-alerts buffer holds at
most 200 alerts, and this stays true after every evaluate operation;
every evaluate step either leaves the buffer unchanged or appends the
newly created alert at the back, evicting the oldest (front) alert
exactly when the buffer is already at capacity; and no per-type
cumulative counter ever decreases across a step. -/
theorem alert_buffer_bounded_and_counts_monotone (e e' : AlertEngine)
    (hr : Reachable e) (hs : EngineStep e e') :
    e.alerts.length ≤ 200 ∧ e'.alerts.length ≤ 200 ∧
    (∀ k, e.counts k ≤ e'.counts k) ∧
    (e'.alerts = e.alerts ∨
      ∃ a, e'.alerts = (if 200 ≤ e.alerts.length then e.alerts.tail else e.alerts) ++ [a]) :=
  ⟨reachable_alerts_length hr,
   engineStep_alerts_length hs (reachable_alerts_length hr),
   fun k => engineStep_counts_le hs k,
   engineStep_alerts_shape hs⟩

/-- Witness for C7 at the freshly constructed engine and one concrete
rapid-fire evaluation step. -/
theorem alert_buffer_bounded_and_counts_monotone_witness :
    AlertEngine.new.alerts.length ≤ 200 ∧
    (evaluate_rapid_fire AlertEngine.new ⟨"FRAUD-01", 25, 1000, 1, 2⟩ 7 9).1.alerts.length ≤ 200 ∧
    (∀ k, AlertEngine.new.counts k ≤
      (evaluate_rapid_fire AlertEngine.new ⟨"FRAUD-01", 25, 1000, 1, 2⟩ 7 9).1.counts k) ∧
    ((evaluate_rapid_fire AlertEngine.new ⟨"FRAUD-01", 25, 1000, 1, 2⟩ 7 9).1.alerts =
        AlertEngine.new.alerts ∨
      ∃ a, (evaluate_rapid_fire AlertEngine.new ⟨"FRAUD-01", 25, 1000, 1, 2⟩ 7 9).1.alerts =
        (if 200 ≤ AlertEngine.new.alerts.length then AlertEngine.new.alerts.tail
         else AlertEngine.new.alerts) ++ [a]) :=
  alert_buffer_bounded_and_counts_monotone AlertEngine.new
    (evaluate_rapid_fire AlertEngine.new ⟨"FRAUD-01", 25, 1000, 1, 2⟩ 7 9).1
    Reachable.init (EngineStep.rapid AlertEngine.new ⟨"FRAUD-01", 25, 1000, 1, 2⟩ 7 9)

/-! ## C1: the first observation for a fresh symbol never alerts -/

/-- C1: in any reachable engine state in which the row's symbol has no
volume history yet, the average used by `evaluate_volume` is the row's
own total volume (forcing a ratio of 1, below the ratio threshold of 2),
and the evaluation returns no alert. -/
theorem first_volume_observation_no_alert (e : AlertEngine) (row : VolumeBaseline)
    (lat_us : Nat) (now_ms : Int) (hr : Reachable e)
    (hh : e.vol_baselines row.symbol = []) :
    volumeAvg (e.vol_baselines row.symbol) row.total_volume = row.total_volume ∧
    (evaluate_volume e row lat_us now_ms).2 = none := by
  have hthr := (reachable_thresholds hr).1
  have havg : volumeAvg (e.vol_baselines row.symbol) row.total_volume = row.total_volume := by
    rw [hh]
    simp [volumeAvg]
  refine ⟨havg, ?_⟩
  simp only [evaluate_volume, havg]
  rcases le_or_lt row.total_volume 0 with hle | hpos
  · rw [if_neg (not_lt.mpr hle)]
  · have hne : ((row.total_volume : Rat)) ≠ 0 := by
      exact_mod_cast hpos.ne'
    rw [if_pos hpos, div_self hne, hthr, if_neg (by norm_num : ¬ (2 : Rat) < 1)]

/-- Witness for C1: the very first AAPL observation (total volume 700)
on a fresh engine produces no alert. -/
theorem first_volume_observation_no_alert_witness :
    AlertEngine.new.vol_baselines "AAPL" = [] ∧
    volumeAvg (AlertEngine.new.vol_baselines "AAPL") 700 = 700 ∧
    (evaluate_volume AlertEngine.new ⟨"AAPL", 700, 4, 301 / 2⟩ 7 9).2 = none := by
  have h := first_volume_observation_no_alert AlertEngine.new ⟨"AAPL", 700, 4, 301 / 2⟩ 7 9
    Reachable.init rfl
  exact ⟨rfl, h.1, h.2⟩

/-! ## C2: rapid-fire trigger threshold and severity tiers -/

/-- C2: with the default burst threshold of 5, `evaluate_rapid_fire`
returns an alert iff the row's burst count is at least 5; the returned
alert is Medium for counts up to 20, High for counts in (20, 50], and
Critical above 50. -/
theorem rapid_fire_alert_iff (e : AlertEngine) (row : RapidFireBurst)
    (lat_us : Nat) (now_ms : Int) (hthr : e.rapid_fire_threshold = 5) :
    ((evaluate_rapid_fire e row lat_us now_ms).2.isSome ↔ 5 ≤ row.burst_trades) ∧
    ∀ a, (evaluate_rapid_fire e row lat_us now_ms).2 = some a →
      a.alert_type = AlertType.RapidFire ∧
      (a.severity = AlertSeverity.Medium ↔ row.burst_trades ≤ 20) ∧
      (a.severity = AlertSeverity.High ↔ 20 < row.burst_trades ∧ row.burst_trades ≤ 50) ∧
      (a.severity = AlertSeverity.Critical ↔ 50 < row.burst_trades) := by
  simp only [evaluate_rapid_fire, hthr]
  split_ifs with h1 h2 h3
  · refine ⟨by simp [h1], ?_⟩
    rintro a ha
    cases ha
    refine ⟨rfl, ?_, ?_, ?_⟩ <;> simp <;> omega
  · refine ⟨by simp [h1], ?_⟩
    rintro a ha
    cases ha
    refine ⟨rfl, ?_, ?_, ?_⟩ <;> simp <;> omega
  · refine ⟨by simp [h1], ?_⟩
    rintro a ha
    cases ha
    refine ⟨rfl, ?_, ?_, ?_⟩ <;> simp <;> omega
  · refine ⟨by simp [h1], ?_⟩
    rintro a ha
    cases ha

/-- Witness for C2: a burst of 25 trades on a fresh engine alerts. -/
theorem rapid_fire_alert_iff_witness :
    AlertEngine.new.rapid_fire_threshold = 5 ∧
    (evaluate_rapid_fire AlertEngine.new ⟨"FRAUD-02", 25, 500, 1, 2⟩ 7 9).2.isSome :=
  ⟨rfl, ((rapid_fire_alert_iff AlertEngine.new ⟨"FRAUD-02", 25, 500, 1, 2⟩ 7 9 rfl).1).mpr
    (by decide)⟩

/-! ## C3: wash-trading trigger (corrected: the code also requires a
positive total volume) -/

/-- C3 counterexample: a `WashScore` row with `buy_count ≥ 2` and
`sell_count ≥ 2` on which the claim's formula yields an imbalance of 0,
strictly below the default threshold 0.3, yet `evaluate_wash` returns no
alert — the code additionally requires `buy_volume + sell_volume > 0`,
which fails here. -/
theorem wash_alert_iff_counterexample :
    2 ≤ (WashScore.mk "FRAUD-01" "AAPL" (-200) (-200) 2 2).buy_count ∧
    2 ≤ (WashScore.mk "FRAUD-01" "AAPL" (-200) (-200) 2 2).sell_count ∧
    AlertEngine.new.wash_imbalance_threshold = 3 / 10 ∧
    abs ((-200 : Rat) - (-200)) / ((-200 : Rat) + (-200)) < 3 / 10 ∧
    washImbalance (WashScore.mk "FRAUD-01" "AAPL" (-200) (-200) 2 2) < 3 / 10 ∧
    (evaluate_wash AlertEngine.new (WashScore.mk "FRAUD-01" "AAPL" (-200) (-200) 2 2) 7 9).2
      = none := by
  refine ⟨by decide, by decide, rfl, by norm_num, ?_, ?_⟩
  · norm_num [washImbalance]
  · simp only [evaluate_wash]
    rw [if_neg]
    intro h
    have := h.1
    omega

/-- C3 (amended): for every `WashScore` row with `buy_count ≥ 2`,
`sell_count ≥ 2` and positive total volume `buy_volume + sell_volume`,
under the default imbalance threshold 0.3, `evaluate_wash` returns an
alert iff `|buy - sell| / (buy + sell) < 0.3`; any alert it returns is a
WashTrading alert; and in particular the row with buy = sell = 200 has
imbalance 0 and yields a Critical WashTrading alert. -/
theorem wash_alert_iff (e : AlertEngine) (row : WashScore) (lat_us : Nat) (now_ms : Int)
    (hthr : e.wash_imbalance_threshold = 3 / 10)
    (hb : 2 ≤ row.buy_count) (hs : 2 ≤ row.sell_count)
    (hpos : 0 < row.buy_volume + row.sell_volume) :
    ((evaluate_wash e row lat_us now_ms).2.isSome ↔ washImbalance row < 3 / 10) ∧
    (∀ a, (evaluate_wash e row lat_us now_ms).2 = some a →
       a.alert_type = AlertType.WashTrading) ∧
    washImbalance (WashScore.mk "A" "GOOGL" 200 200 2 2) = 0 ∧
    (∃ a, (evaluate_wash AlertEngine.new (WashScore.mk "A" "GOOGL" 200 200 2 2) lat_us now_ms).2
        = some a ∧ a.severity = AlertSeverity.Critical ∧
        a.alert_type = AlertType.WashTrading) := by
  have himb0 : washImbalance (WashScore.mk "A" "GOOGL" 200 200 2 2) = 0 := by
    norm_num [washImbalance]
  refine ⟨?_, ?_, himb0, ?_⟩
  · simp only [evaluate_wash, hthr, if_pos (And.intro hpos (And.intro hb hs))]
    split_ifs with him h1 h2 <;> simpa using him
  · simp only [evaluate_wash, hthr, if_pos (And.intro hpos (And.intro hb hs))]
    split_ifs with him h1 h2 <;> rintro a ha <;> cases ha <;> rfl
  · simp only [evaluate_wash, himb0]
    rw [if_pos (by decide)]
    rw [if_pos (by norm_num [AlertEngine.new] :
      (0 : Rat) < AlertEngine.new.wash_imbalance_threshold)]
    rw [if_pos (by norm_num : (0 : Rat) < 1 / 50)]
    exact ⟨_, rfl, rfl, rfl⟩

/-- Witness for the amended C3 at the buy = sell = 200 row on a fresh
engine. -/
theorem wash_alert_iff_witness :
    AlertEngine.new.wash_imbalance_threshold = 3 / 10 ∧
    (evaluate_wash AlertEngine.new (WashScore.mk "A" "GOOGL" 200 200 2 2) 7 9).2.isSome := by
  have h := wash_alert_iff AlertEngine.new (WashScore.mk "A" "GOOGL" 200 200 2 2) 7 9 rfl
    (by decide) (by decide) (by decide)
  exact ⟨rfl, h.1.mpr (by norm_num [washImbalance])⟩

/-! ## C4: OHLC volatility trigger (corrected: the code divides the
row's price_range field, not high - low, by the open) -/

/-- C4 counterexample: an `OhlcVolatility` row with `high = low` (so the
claim's trigger `(high - low) / open > 0.002` is false) but a large
`price_range` field: `evaluate_ohlc` does return an alert, because the
code computes the range fraction from `price_range`, not from
`high - low`. -/
theorem ohlc_alert_iff_counterexample :
    (0 : Rat) < (OhlcVolatility.mk "AAPL" 0 100 100 100 100 42 10).«open» ∧
    ((OhlcVolatility.mk "AAPL" 0 100 100 100 100 42 10).high -
        (OhlcVolatility.mk "AAPL" 0 100 100 100 100 42 10).low) /
      (OhlcVolatility.mk "AAPL" 0 100 100 100 100 42 10).«open» ≤ 1 / 500 ∧
    AlertEngine.new.price_range_pct_threshold = 1 / 500 ∧
    (evaluate_ohlc AlertEngine.new (OhlcVolatility.mk "AAPL" 0 100 100 100 100 42 10) 7 9).2.isSome
      = true := by
  refine ⟨by norm_num, by norm_num, rfl, ?_⟩
  simp only [evaluate_ohlc, rangePct]
  rw [if_pos (by norm_num : (0 : Rat) <
    (OhlcVolatility.mk "AAPL" 0 100 100 100 100 42 10).«open»)]
  rw [if_pos (by norm_num [AlertEngine.new] : AlertEngine.new.price_range_pct_threshold <
    (OhlcVolatility.mk "AAPL" 0 100 100 100 100 42 10).price_range /
      (OhlcVolatility.mk "AAPL" 0 100 100 100 100 42 10).«open»)]
  rfl

/-- C4 (amended): for every `OhlcVolatility` row whose `price_range`
field equals `high - low` (as the upstream aggregation produces), under
the default range threshold 0.002, `evaluate_ohlc` returns an alert iff
`open > 0` and `(high - low) / open > 0.002`, with severity Medium when
the range fraction is at most 1%, High when it is in (1%, 5%], and
Critical when it exceeds 5%. -/
theorem ohlc_alert_iff (e : AlertEngine) (row : OhlcVolatility) (lat_us : Nat) (now_ms : Int)
    (hthr : e.price_range_pct_threshold = 1 / 500)
    (hpr : row.price_range = row.high - row.low) :
    ((evaluate_ohlc e row lat_us now_ms).2.isSome ↔
       0 < row.«open» ∧ 1 / 500 < (row.high - row.low) / row.«open») ∧
    ∀ a, (evaluate_ohlc e row lat_us now_ms).2 = some a →
      a.alert_type = AlertType.PriceSpike ∧
      (a.severity = AlertSeverity.Medium ↔ (row.high - row.low) / row.«open» ≤ 1 / 100) ∧
      (a.severity = AlertSeverity.High ↔ 1 / 100 < (row.high - row.low) / row.«open» ∧
         (row.high - row.low) / row.«open» ≤ 1 / 20) ∧
      (a.severity = AlertSeverity.Critical ↔ 1 / 20 < (row.high - row.low) / row.«open») := by
  have hrp : rangePct row = (row.high - row.low) / row.«open» := by
    rw [rangePct, hpr]
  simp only [evaluate_ohlc, hthr, hrp]
  split_ifs with h0 h1 h2 h3
  · refine ⟨⟨fun _ => ⟨h0, h1⟩, fun _ => rfl⟩, ?_⟩
    rintro a ha
    cases ha
    refine ⟨rfl, ?_, ?_, ?_⟩
    · simp only [reduceCtorEq, false_iff, not_le]
      linarith
    · simp only [reduceCtorEq, false_iff, not_and, not_le]
      intro h
      linarith
    · simp only [true_iff]
      exact h2
  · refine ⟨⟨fun _ => ⟨h0, h1⟩, fun _ => rfl⟩, ?_⟩
    rintro a ha
    cases ha
    refine ⟨rfl, ?_, ?_, ?_⟩
    · simp only [reduceCtorEq, false_iff, not_le]
      exact h3
    · simp only [true_iff]
      exact ⟨h3, by linarith⟩
    · simp only [reduceCtorEq, false_iff, not_lt]
      linarith
  · refine ⟨⟨fun _ => ⟨h0, h1⟩, fun _ => rfl⟩, ?_⟩
    rintro a ha
    cases ha
    refine ⟨rfl, ?_, ?_, ?_⟩
    · simp only [true_iff]
      linarith
    · simp only [reduceCtorEq, false_iff, not_and, not_le]
      intro h
      linarith
    · simp only [reduceCtorEq, false_iff, not_lt]
      linarith
  · refine ⟨?_, ?_⟩
    · simp only [Option.isSome_none, Bool.false_eq_true, false_iff, not_and, not_lt]
      intro h
      linarith
    · rintro a ha
      cases ha
  · refine ⟨?_, ?_⟩
    · simp only [Option.isSome_none, Bool.false_eq_true, false_iff, not_and]
      intro h
      exact absurd h h0
    · rintro a ha
      cases ha

/-- Witness for the amended C4 at the repository's own OHLC test bar
(open 300, high 310, low 290, range 20). -/
theorem ohlc_alert_iff_witness :
    AlertEngine.new.price_range_pct_threshold = 1 / 500 ∧
    (OhlcVolatility.mk "MSFT" 100000 300 310 290 305 350 20).price_range =
      (OhlcVolatility.mk "MSFT" 100000 300 310 290 305 350 20).high -
        (OhlcVolatility.mk "MSFT" 100000 300 310 290 305 350 20).low ∧
    (evaluate_ohlc AlertEngine.new (OhlcVolatility.mk "MSFT" 100000 300 310 290 305 350 20)
      7 9).2.isSome := by
  have h := ohlc_alert_iff AlertEngine.new
    (OhlcVolatility.mk "MSFT" 100000 300 310 290 305 350 20) 7 9 rfl (by norm_num)
  exact ⟨rfl, by norm_num, h.1.mpr (by norm_num)⟩

/-! ## C8: totality of generate_cycle in the fraud rate (corrected:
only the upper bound is clamped) -/

/-- A fixed draw oracle for concrete generator evaluations. -/
def trivialDraws : CycleDraws where
  fraudDraw := true
  scenarioIdx := 0
  manipSymIdx := 0
  spike := ⟨0, 0, 0, fun _ => 0, fun _ => 0, fun _ => false, fun _ => 0⟩
  rapid := ⟨0, 0, 0, fun _ => 0, fun _ => false, fun _ => 0, fun _ => 0⟩
  wash := ⟨0, 0, 0, fun _ => 0, fun _ => 0⟩
  normal := fun _ => ⟨0, 0, 0, false, 0, false, 0⟩

/-- C8 counterexample: with a fraud rate of -1/2 the value passed to the
Bernoulli draw is `min (-1/2) 1 = -1/2`, below 0, so the draw fails:
`generate_cycle` is not total for rates below 0 — the code clamps the
probability from above only (`.min(1.0)`), not to the interval [0, 1]. -/
theorem generate_cycle_negative_rate_counterexample :
    generate_cycle (FraudGenerator.new (-(1 / 2))) 0 trivialDraws = none := by
  have hmin : min (FraudGenerator.new (-(1 / 2))).fraud_rate 1 = -(1 / 2) := by
    simp only [FraudGenerator.new]
    norm_num
  simp only [generate_cycle, gen_bool, hmin]
  rw [if_neg]
  intro h
  have := h.1
  norm_num at this

/-- C8 (amended): the probability passed to the Bernoulli draw is
clamped from above to 1 but not from below, so `generate_cycle` is total
exactly for every nonnegative configured fraud rate, including rates
above 1; a rate below 0 reaches the draw unclamped and fails. -/
theorem generate_cycle_total_iff_nonneg_rate (s : GenState) (ts : Int) (o : CycleDraws)
    (h : 0 ≤ s.fraud_rate) :
    min s.fraud_rate 1 ≤ 1 ∧ 0 ≤ min s.fraud_rate 1 ∧
    (generate_cycle s ts o).isSome := by
  have h1 : 0 ≤ min s.fraud_rate 1 := le_min h (by norm_num)
  have h2 : min s.fraud_rate 1 ≤ 1 := min_le_right _ _
  refine ⟨h2, h1, ?_⟩
  simp only [generate_cycle, gen_bool, if_pos (And.intro h1 h2)]
  cases o.fraudDraw <;> simp <;> split <;> simp

/-- Witness for the amended C8 at a fraud rate of 7 (above 1, still
total). -/
theorem generate_cycle_total_iff_nonneg_rate_witness :
    (0 : Rat) ≤ (FraudGenerator.new 7).fraud_rate ∧
    (generate_cycle (FraudGenerator.new 7) 0 trivialDraws).isSome :=
  ⟨by norm_num [FraudGenerator.new],
   (generate_cycle_total_iff_nonneg_rate (FraudGenerator.new 7) 0 trivialDraws
     (by norm_num [FraudGenerator.new])).2.2⟩

/-! ## C6: latency percentile statistics -/

/-- C6: the three stats operations are computed by `compute_stats` on
the corresponding window; an empty window yields the all-zero default;
on a nonempty window the statistics are read off a sorted copy of the
window contents at index floor(n * pctile / 100), the p99 index clamped
to n - 1, together with min, max and count; and the window
[1, 2, ..., 100] yields p50 = 51, p95 = 96, p99 = 100. -/
theorem latency_stats_spec (t : LatencyTracker) (q : List Nat) (hq : q ≠ []) :
    push_stats t = compute_stats t.push_latencies ∧
    processing_stats t = compute_stats t.processing_latencies ∧
    alert_stats t = compute_stats t.alert_latencies ∧
    compute_stats [] = LatencyStats.zeroDefault ∧
    (∃ s : List Nat, s.Perm q ∧ s.Sorted (· ≤ ·) ∧
      compute_stats q =
        { p50_us := s.getD (q.length * 50 / 100) 0
          p95_us := s.getD (q.length * 95 / 100) 0
          p99_us := s.getD (min (q.length * 99 / 100) (q.length - 1)) 0
          min_us := s.getD 0 0
          max_us := s.getD (q.length - 1) 0
          count := q.length }) ∧
    compute_stats (List.range' 1 100) =
      { p50_us := 51, p95_us := 96, p99_us := 100, min_us := 1, max_us := 100, count := 100 } := by
  refine ⟨rfl, rfl, rfl, rfl, ?_, by decide⟩
  refine ⟨List.insertionSort (· ≤ ·) q, List.perm_insertionSort _ q,
    List.sorted_insertionSort _ q, ?_⟩
  have hlen : (List.insertionSort (· ≤ ·) q).length = q.length :=
    (List.perm_insertionSort _ q).length_eq
  have hne : q.isEmpty = false := by
    cases q
    · exact absurd rfl hq
    · rfl
  simp only [compute_stats, hne, Bool.false_eq_true, if_false, hlen]

/-- Witness for C6 at the window [1, ..., 100]. -/
theorem latency_stats_spec_witness :
    ([] : List Nat) ≠ [1] ∧
    compute_stats [1] =
      { p50_us := 1, p95_us := 1, p99_us := 1, min_us := 1, max_us := 1, count := 1 } ∧
    compute_stats (List.range' 1 100) =
      { p50_us := 51, p95_us := 96, p99_us := 100, min_us := 1, max_us := 100, count := 100 } := by
  have h := latency_stats_spec LatencyTracker.new [1] (by decide)
  exact ⟨by decide, by decide, h.2.2.2.2.2⟩

/-! ## C9: stress cycle (modelled from the spec) -/

/-- C9: `generate_stress_cycle(ts, n)` emits exactly n trades, every
trade's account is a normal account and not a fraud account, timestamps
are the deterministic sequence ts, ts+1, ... (independent of the
draws), every trade falls inside the cycle's span [ts, ts + span), and
any trade of a following cycle anchored at ts + span is strictly later
than every trade of this cycle. -/
theorem stress_cycle_spec (s s2 : GenState) (ts : Int) (n n2 : Nat)
    (d d2 : Nat → StressDraw)
    (hd : ∀ i, (d i).acctIdx < NORMAL_ACCOUNTS.length) :
    (generate_stress_cycle s ts n d).2.length = n ∧
    ((generate_stress_cycle s ts n d).2.map Trade.ts =
      (List.range n).map (fun i : Nat => ts + (i : Int) * STRESS_SPACING_MS)) ∧
    (∀ t ∈ (generate_stress_cycle s ts n d).2,
      t.account_id ∈ NORMAL_ACCOUNTS ∧ t.account_id ∉ FRAUD_ACCOUNTS ∧
      ts ≤ t.ts ∧ t.ts < ts + stress_cycle_span_ms n) ∧
    (∀ t ∈ (generate_stress_cycle s ts n d).2,
      ∀ u ∈ (generate_stress_cycle s2 (ts + stress_cycle_span_ms n) n2 d2).2,
        t.ts < u.ts) := by
  have hmem : ∀ t ∈ (generate_stress_cycle s ts n d).2,
      t.account_id ∈ NORMAL_ACCOUNTS ∧ t.account_id ∉ FRAUD_ACCOUNTS ∧
      ts ≤ t.ts ∧ t.ts < ts + stress_cycle_span_ms n := by
    intro t ht
    simp only [generate_stress_cycle, List.mem_map, List.mem_range] at ht
    obtain ⟨i, hi, rfl⟩ := ht
    have hacct : NORMAL_ACCOUNTS.getD ((d i).acctIdx) "" ∈ NORMAL_ACCOUNTS := by
      rw [List.getD_eq_getElem _ _ (hd i)]
      exact List.getElem_mem _
    refine ⟨hacct, ?_, ?_, ?_⟩
    · have hdisj : ∀ x ∈ NORMAL_ACCOUNTS, x ∉ FRAUD_ACCOUNTS := by decide
      exact hdisj _ hacct
    · simp only [STRESS_SPACING_MS, mul_one]
      omega
    · simp only [STRESS_SPACING_MS, stress_cycle_span_ms, mul_one]
      omega
  refine ⟨by simp [generate_stress_cycle], ?_, hmem, ?_⟩
  · simp only [generate_stress_cycle, List.map_map]
    rfl
  intro t ht u hu
  have h1 := (hmem t ht).2.2.2
  simp only [generate_stress_cycle, List.mem_map, List.mem_range] at hu
  obtain ⟨j, hj, rfl⟩ := hu
  simp only [STRESS_SPACING_MS, mul_one]
  omega

/-- Witness for C9: a 3-trade stress cycle with a constant draw. -/
theorem stress_cycle_spec_witness :
    (generate_stress_cycle (FraudGenerator.new 0) 1000 3 (fun _ => ⟨0, true, 10⟩)).2.length = 3 ∧
    ∀ t ∈ (generate_stress_cycle (FraudGenerator.new 0) 1000 3 (fun _ => ⟨0, true, 10⟩)).2,
      t.account_id ∈ NORMAL_ACCOUNTS := by
  have h := stress_cycle_spec (FraudGenerator.new 0) (FraudGenerator.new 0) 1000 3 3
    (fun _ => ⟨0, true, 10⟩) (fun _ => ⟨0, true, 10⟩)
    (by intro i; show (0 : Nat) < NORMAL_ACCOUNTS.length; decide)
  exact ⟨h.1, fun t ht => (h.2.2.1 t ht).1⟩

/-! ## C10: record_poll before any record_push_end is a silent no-op -/

lemma runOps_append (t : LatencyTracker) (ops : List TrackOp) (op : TrackOp) :
    runOps t (ops ++ [op]) = applyOp (runOps t ops) op := by
  simp [runOps, List.foldl_append]

lemma noPushEndSinceReset_drop (ops : List TrackOp) (op : TrackOp)
    (h : noPushEndSinceReset (ops ++ [op]) = true) (hnr : op.isReset = false) :
    op.isPushEnd = false ∧ noPushEndSinceReset ops = true := by
  simp only [noPushEndSinceReset, List.reverse_append, List.reverse_singleton,
    List.singleton_append, List.takeWhile_cons, hnr, Bool.not_false, if_true,
    List.all_cons, Bool.and_eq_true, Bool.not_eq_true'] at h
  exact ⟨h.1, by simp only [noPushEndSinceReset]; exact h.2⟩

lemma noPushEnd_last_instant_none (ops : List TrackOp)
    (h : noPushEndSinceReset ops = true) :
    (runOps LatencyTracker.new ops).last_push_instant = none := by
  induction ops using List.reverseRecOn with
  | nil => rfl
  | append_singleton ops op ih =>
      rw [runOps_append]
      cases op with
      | reset => rfl
      | pushEnd start now =>
          obtain ⟨hcontra, -⟩ := noPushEndSinceReset_drop ops _ h rfl
          cases hcontra
      | poll now =>
          obtain ⟨-, hrest⟩ := noPushEndSinceReset_drop ops _ h rfl
          have hn := ih hrest
          simp only [applyOp, record_poll, hn]
      | alert g now =>
          obtain ⟨-, hrest⟩ := noPushEndSinceReset_drop ops _ h rfl
          have hn := ih hrest
          simpa only [applyOp, record_alert] using hn

/-- C10: if no `record_push_end` has happened since the tracker's
construction or since the most recent reset, a `record_poll` call
records no sample and leaves the whole tracker state unchanged. -/
theorem record_poll_without_push_end_is_noop (ops : List TrackOp) (now : Nat)
    (h : noPushEndSinceReset ops = true) :
    record_poll (runOps LatencyTracker.new ops) now = runOps LatencyTracker.new ops := by
  have hn := noPushEnd_last_instant_none ops h
  simp only [record_poll, hn]

/-- Witness for C10: a poll right after a push-end followed by a reset
changes nothing. -/
theorem record_poll_without_push_end_is_noop_witness :
    noPushEndSinceReset [TrackOp.pushEnd 1 5, TrackOp.reset, TrackOp.poll 9] = true ∧
    record_poll (runOps LatencyTracker.new
        [TrackOp.pushEnd 1 5, TrackOp.reset, TrackOp.poll 9]) 11 =
      runOps LatencyTracker.new [TrackOp.pushEnd 1 5, TrackOp.reset, TrackOp.poll 9] :=
  ⟨by decide,
   record_poll_without_push_end_is_noop [TrackOp.pushEnd 1 5, TrackOp.reset, TrackOp.poll 9]
     11 (by decide)⟩

/-! ## C5: the price-manipulation arc -/

lemma generate_normal_armed_push (s : GenState) (d : String → NormalDraw) (ts : Int)
    (X : String) (m : Nat) (hX : X ∈ SYMBOLS.map Prod.fst)
    (hsym : s.manipulation_symbol = some X)
    (hrem : s.manipulation_remaining = m + 2) :
    (generate_normal s d ts).1.prices X = s.prices X + s.prices X * (d X).pushFrac ∧
    (generate_normal s d ts).1.manipulation_remaining = m + 1 ∧
    (generate_normal s d ts).1.manipulation_symbol = some X := by
  have hpos : 0 < m + 2 := by omega
  have hne : ¬ (m + 2 - 1 = 0) := by omega
  have hsub : m + 2 - 1 = m + 1 := by omega
  simp only [SYMBOLS, List.map, List.mem_cons, List.not_mem_nil, or_false] at hX
  rcases hX with rfl | rfl | rfl | rfl | rfl <;>
    simp [generate_normal, SYMBOLS, normalSymStep, hsym, hrem, hpos, hne, hsub]

lemma generate_normal_armed_final (s : GenState) (d : String → NormalDraw) (ts : Int)
    (X : String) (hX : X ∈ SYMBOLS.map Prod.fst)
    (hsym : s.manipulation_symbol = some X)
    (hrem : s.manipulation_remaining = 1) :
    (generate_normal s d ts).1.prices X =
      (s.prices X + s.prices X * (d X).pushFrac) * (92 / 100) ∧
    (generate_normal s d ts).1.manipulation_remaining = 0 ∧
    (generate_normal s d ts).1.manipulation_symbol = none := by
  simp only [SYMBOLS, List.map, List.mem_cons, List.not_mem_nil, or_false] at hX
  rcases hX with rfl | rfl | rfl | rfl | rfl <;>
    simp [generate_normal, SYMBOLS, normalSymStep, hsym, hrem]

lemma generate_normal_disarmed (s : GenState) (d : String → NormalDraw) (ts : Int)
    (X : String) (hX : X ∈ SYMBOLS.map Prod.fst)
    (hsym : s.manipulation_symbol = none) :
    (generate_normal s d ts).1.prices X = s.prices X + s.prices X * (d X).walkFrac ∧
    (generate_normal s d ts).1.manipulation_remaining = s.manipulation_remaining ∧
    (generate_normal s d ts).1.manipulation_symbol = none := by
  simp only [SYMBOLS, List.map, List.mem_cons, List.not_mem_nil, or_false] at hX
  rcases hX with rfl | rfl | rfl | rfl | rfl <;>
    simp [generate_normal, SYMBOLS, normalSymStep, hsym]

set_option maxHeartbeats 1000000 in
/-- C5: once the price-manipulation arc is armed (3 remaining cycles,
target symbol X) and the target price is positive, then for every
sequence of in-range random draws the next two normal cycles each raise
X's price by the drawn 2-4% push; the third normal cycle applies one
more 2-4% push and then a drop of exactly 8% (so the price falls on that
call), after which the arc is disarmed; and the following normal cycle
is back to the plain ±0.5% symmetric random walk. -/
theorem price_manipulation_arc (s0 : GenState) (X : String)
    (d1 d2 d3 d4 : String → NormalDraw) (ts1 ts2 ts3 ts4 : Int)
    (hX : X ∈ SYMBOLS.map Prod.fst)
    (hrem : s0.manipulation_remaining = 3) (hsym : s0.manipulation_symbol = some X)
    (hp0 : 0 < s0.prices X)
    (h1l : 1 / 50 ≤ (d1 X).pushFrac) (h1u : (d1 X).pushFrac < 1 / 25)
    (h2l : 1 / 50 ≤ (d2 X).pushFrac) (h2u : (d2 X).pushFrac < 1 / 25)
    (h3l : 1 / 50 ≤ (d3 X).pushFrac) (h3u : (d3 X).pushFrac < 1 / 25)
    (h4l : -(1 / 200) ≤ (d4 X).walkFrac) (h4u : (d4 X).walkFrac < 1 / 200) :
    ∃ s1 s2 s3 s4 : GenState,
      s1 = (generate_normal s0 d1 ts1).1 ∧
      s2 = (generate_normal s1 d2 ts2).1 ∧
      s3 = (generate_normal s2 d3 ts3).1 ∧
      s4 = (generate_normal s3 d4 ts4).1 ∧
      s1.prices X = s0.prices X * (1 + (d1 X).pushFrac) ∧
      s0.prices X * (1 + 1 / 50) ≤ s1.prices X ∧
      s1.prices X < s0.prices X * (1 + 1 / 25) ∧
      s1.manipulation_remaining = 2 ∧
      s1.manipulation_symbol = some X ∧
      s2.prices X = s1.prices X * (1 + (d2 X).pushFrac) ∧
      s1.prices X * (1 + 1 / 50) ≤ s2.prices X ∧
      s2.prices X < s1.prices X * (1 + 1 / 25) ∧
      s2.manipulation_remaining = 1 ∧
      s2.manipulation_symbol = some X ∧
      s3.prices X = s2.prices X * (1 + (d3 X).pushFrac) * (1 - 8 / 100) ∧
      s3.prices X < s2.prices X ∧
      s3.manipulation_remaining = 0 ∧
      s3.manipulation_symbol = none ∧
      s4.prices X = s3.prices X * (1 + (d4 X).walkFrac) ∧
      s3.prices X * (1 - 1 / 200) ≤ s4.prices X ∧
      s4.prices X < s3.prices X * (1 + 1 / 200) := by
  obtain ⟨p1, r1, y1⟩ := generate_normal_armed_push s0 d1 ts1 X 1 hX hsym (by omega)
  obtain ⟨p2, r2, y2⟩ :=
    generate_normal_armed_push (generate_normal s0 d1 ts1).1 d2 ts2 X 0 hX y1 (by omega)
  obtain ⟨p3, r3, y3⟩ :=
    generate_normal_armed_final (generate_normal (generate_normal s0 d1 ts1).1 d2 ts2).1
      d3 ts3 X hX y2 (by omega)
  obtain ⟨p4, r4, y4⟩ :=
    generate_normal_disarmed
      (generate_normal (generate_normal (generate_normal s0 d1 ts1).1 d2 ts2).1 d3 ts3).1
      d4 ts4 X hX y3
  have m1l := mul_le_mul_of_nonneg_left h1l hp0.le
  have m1u := mul_lt_mul_of_pos_left h1u hp0
  have hp1 : 0 < (generate_normal s0 d1 ts1).1.prices X := by
    rw [p1]
    linarith only [m1l, hp0]
  have m2l := mul_le_mul_of_nonneg_left h2l hp1.le
  have m2u := mul_lt_mul_of_pos_left h2u hp1
  have hp2 : 0 < (generate_normal (generate_normal s0 d1 ts1).1 d2 ts2).1.prices X := by
    rw [p2]
    linarith only [m2l, hp1]
  have m3l := mul_le_mul_of_nonneg_left h3l hp2.le
  have m3u := mul_lt_mul_of_pos_left h3u hp2
  have hp3 : 0 <
      (generate_normal (generate_normal (generate_normal s0 d1 ts1).1 d2 ts2).1
        d3 ts3).1.prices X := by
    rw [p3]
    apply mul_pos
    · linarith only [m3l, hp2]
    · norm_num
  have m4l := mul_le_mul_of_nonneg_left h4l hp3.le
  have m4u := mul_lt_mul_of_pos_left h4u hp3
  refine ⟨_, _, _, _, rfl, rfl, rfl, rfl, ?_, ?_, ?_, r1, y1, ?_, ?_, ?_, r2, y2,
    ?_, ?_, r3, y3, ?_, ?_, ?_⟩
  · rw [p1]; ring
  · rw [p1]
    linarith only [m1l]
  · rw [p1]
    linarith only [m1u]
  · rw [p2]; ring
  · rw [p2]
    linarith only [m2l]
  · rw [p2]
    linarith only [m2u]
  · rw [p3]; ring
  · rw [p3]
    linarith only [m3u, hp2]
  · rw [p4]; ring
  · rw [p4]
    linarith only [m4l]
  · rw [p4]
    linarith only [m4u]

/-- A concrete armed generator state for the C5 witness: freshly
constructed, with the arc armed on AAPL. -/
def arcState : GenState :=
  { FraudGenerator.new 0 with
    manipulation_remaining := 3
    manipulation_symbol := some "AAPL" }

/-- A concrete in-range draw oracle for the C5 witness: every push is
3%, every walk is 0%. -/
def arcDraw : String → NormalDraw :=
  fun _ => ⟨3 / 100, 0, 0, true, 10, false, 0⟩

/-- Witness for C5 at the concrete armed state and constant draws. -/
theorem price_manipulation_arc_witness :
    arcState.manipulation_remaining = 3 ∧
    arcState.manipulation_symbol = some "AAPL" ∧
    0 < arcState.prices "AAPL" ∧
    (generate_normal
      (generate_normal (generate_normal arcState arcDraw 0).1 arcDraw 0).1
      arcDraw 0).1.manipulation_symbol = none := by
  have hpv : arcState.prices "AAPL" = 150 := rfl
  have hp : 0 < arcState.prices "AAPL" := by
    rw [hpv]
    norm_num
  have harc := price_manipulation_arc arcState "AAPL" arcDraw arcDraw arcDraw arcDraw
    0 0 0 0 (by decide) rfl rfl hp
    (by norm_num [arcDraw]) (by norm_num [arcDraw]) (by norm_num [arcDraw])
    (by norm_num [arcDraw]) (by norm_num [arcDraw]) (by norm_num [arcDraw])
    (by norm_num [arcDraw]) (by norm_num [arcDraw])
  obtain ⟨s1, s2, s3, s4, e1, e2, e3, e4, c1, c2, c3, c4, c5, c6, c7, c8, c9, c10,
    c11, c12, c13, c14, c15, c16, c17⟩ := harc
  subst e1
  subst e2
  subst e3
  exact ⟨rfl, rfl, hp, c14⟩

end FraudDetect
